import Mathlib

/-
Verification development for the JARVIS frontend (React/TypeScript).

Shallow embedding of:
  frontend/src/services/api.ts       (class ApiService)
  frontend/src/App.tsx               (route table)
  frontend/src/components/layout/Layout.tsx (navigation, type definitions)
  frontend/src/pages/Chat.tsx        (handleSendMessage)
  frontend/src/pages/SystemInfo.tsx  (loadSystemInfo)
  frontend/src/pages/Dashboard.tsx   (loadDashboardData, polling effect)

Conventions of the embedding:
  JavaScript numbers that are only carried (never computed with) are
  modelled as Int or Nat; arbitrary JSON payload maps that are only
  carried are modelled as Option String; a field that a JS object
  literal sets to undefined is modelled as a none value of an Option.
-/

namespace Jarvis

/-- JSON-like value as serialized into an axios request body or params.
An object field whose value is none models a field whose JS value is
undefined (an omitted optional argument). -/
inductive JVal : Type
| str (s : String)
| num (n : Int)
| bool (b : Bool)
| arr (xs : List JVal)
| obj (fields : List (String × Option JVal))

/-- The descriptor of one HTTP call as handed to axios by
ApiService.request(method, url, data?, params?). -/
structure HttpRequest where
  method : String
  url : String
  data : Option JVal
  params : Option JVal

/-- Mirrors the argument list of the private ApiService.request method. -/
def mkRequest (method url : String) (data params : Option JVal) : HttpRequest :=
  ⟨method, url, data, params⟩

/-- Characters that JavaScript encodeURIComponent leaves unescaped:
letters, digits, and - _ . ! ~ * ' ( ). The apostrophe is given by
code point 39. -/
def uriUnreservedChar (c : Char) : Bool :=
  ("ABCDEFGHIJKLMNOPQRSTUVWXYZabcdefghijklmnopqrstuvwxyz0123456789-_.!~*()".contains c)
    || c = Char.ofNat 39

/-- Upper-case hexadecimal digit for a value below 16. -/
def hexDigitChar (n : Nat) : Char :=
  "0123456789ABCDEF".data.getD n (Char.ofNat 48)

/-- Percent-encoding of one byte, as %XX with upper-case hex. -/
def percentEncodeByte (b : UInt8) : String :=
  String.mk [Char.ofNat 37, hexDigitChar (b.toNat / 16), hexDigitChar (b.toNat % 16)]

/-- JavaScript's encodeURIComponent: UTF-8 encode the string and
percent-encode every byte that is not an unreserved ASCII character. -/
def encodeURIComponent (s : String) : String :=
  String.join (s.toUTF8.toList.map fun b =>
    if b.toNat < 128 && uriUnreservedChar (Char.ofNat b.toNat) then
      String.singleton (Char.ofNat b.toNat)
    else
      percentEncodeByte b)

/-- Region argument of the screen capture / analyze / scroll calls. -/
structure Region where
  x : Int
  y : Int
  width : Int
  height : Int

/-- JSON serialization of a region object. -/
def regionJ (r : Region) : JVal :=
  .obj [("x", some (.num r.x)), ("y", some (.num r.y)),
        ("width", some (.num r.width)), ("height", some (.num r.height))]

/-- CommandRequest from the frontend type definitions. -/
structure CommandRequest where
  command : String
  user_id : Option String
  last_actions : Option (List String)
deriving DecidableEq

/-- JSON serialization of a CommandRequest body. -/
def commandRequestJ (r : CommandRequest) : JVal :=
  .obj [("command", some (.str r.command)),
        ("user_id", r.user_id.map .str),
        ("last_actions", r.last_actions.map fun xs => .arr (xs.map .str))]

/-- YouTubeVideo from the frontend type definitions. -/
structure YouTubeVideo where
  title : String
  link : String
  duration : String
  views : String
  channel : String
  thumbnail : String
  description : String
  published_time : String

/-- JSON serialization of a YouTubeVideo object. -/
def youTubeVideoJ (v : YouTubeVideo) : JVal :=
  .obj [("title", some (.str v.title)), ("link", some (.str v.link)),
        ("duration", some (.str v.duration)), ("views", some (.str v.views)),
        ("channel", some (.str v.channel)), ("thumbnail", some (.str v.thumbnail)),
        ("description", some (.str v.description)),
        ("published_time", some (.str v.published_time))]

/- HTTP request descriptors issued by each ApiService method. Each
method of the class is `return this.request(METHOD, URL, DATA?, PARAMS?)`;
the descriptor below records exactly those arguments. -/

/-- getHealth: GET /health. -/
def getHealthRequest : HttpRequest :=
  mkRequest "GET" "/health" none none

/-- getApiDocs: GET /api/docs. -/
def getApiDocsRequest : HttpRequest :=
  mkRequest "GET" "/api/docs" none none

/-- executeCommand: POST /api/v1/commands/execute with the request body. -/
def executeCommandRequest (request : CommandRequest) : HttpRequest :=
  mkRequest "POST" "/api/v1/commands/execute" (some (commandRequestJ request)) none

/-- interpretCommand: POST /api/v1/commands/interpret. -/
def interpretCommandRequest (command : String) : HttpRequest :=
  mkRequest "POST" "/api/v1/commands/interpret"
    (some (.obj [("command", some (.str command))])) none

/-- getCommandHistory: GET /api/v1/commands/history. -/
def getCommandHistoryRequest : HttpRequest :=
  mkRequest "GET" "/api/v1/commands/history" none none

/-- getCommandSuggestions: POST /api/v1/commands/suggest. -/
def getCommandSuggestionsRequest (partialCommand : String) : HttpRequest :=
  mkRequest "POST" "/api/v1/commands/suggest"
    (some (.obj [("partial_command", some (.str partialCommand))])) none

/-- getSystemInfo: GET /api/v1/system/info. -/
def getSystemInfoRequest : HttpRequest :=
  mkRequest "GET" "/api/v1/system/info" none none

/-- getInstalledApplications: GET /api/v1/system/applications. -/
def getInstalledApplicationsRequest : HttpRequest :=
  mkRequest "GET" "/api/v1/system/applications" none none

/-- openApplication: POST /api/v1/system/applications/ENC/open where ENC is
the encodeURIComponent of the application name; executable_hints falls back
to the empty array when the argument is omitted. -/
def openApplicationRequest (appName : String) (executableHints : Option (List String)) : HttpRequest :=
  mkRequest "POST" ("/api/v1/system/applications/" ++ encodeURIComponent appName ++ "/open")
    (some (.obj [("executable_hints", some (.arr ((executableHints.getD []).map .str)))])) none

/-- openFolder: POST /api/v1/system/folders/open. -/
def openFolderRequest (folderName : String) (folderPaths : Option (List String)) : HttpRequest :=
  mkRequest "POST" "/api/v1/system/folders/open"
    (some (.obj [("folder_name", some (.str folderName)),
                 ("folder_paths", some (.arr ((folderPaths.getD []).map .str)))])) none

/-- captureScreen: GET /api/v1/system/screen/capture with the region as
query params and no body. -/
def captureScreenRequest (region : Option Region) : HttpRequest :=
  mkRequest "GET" "/api/v1/system/screen/capture" none (region.map regionJ)

/-- analyzeScreen: POST /api/v1/system/screen/analyze. -/
def analyzeScreenRequest (query : String) (region : Option Region) : HttpRequest :=
  mkRequest "POST" "/api/v1/system/screen/analyze"
    (some (.obj [("query", some (.str query)), ("region", region.map regionJ)])) none

/-- clickScreen: POST /api/v1/system/screen/click. -/
def clickScreenRequest (x y : Int) (duration : Option Int) : HttpRequest :=
  mkRequest "POST" "/api/v1/system/screen/click"
    (some (.obj [("x", some (.num x)), ("y", some (.num y)),
                 ("duration", duration.map .num)])) none

/-- scrollScreen: POST /api/v1/system/screen/scroll. -/
def scrollScreenRequest (direction : String) (amount : Int) (x y : Option Int) : HttpRequest :=
  mkRequest "POST" "/api/v1/system/screen/scroll"
    (some (.obj [("direction", some (.str direction)), ("amount", some (.num amount)),
                 ("x", x.map .num), ("y", y.map .num)])) none

/-- typeText: POST /api/v1/system/keyboard/type. -/
def typeTextRequest (text : String) (interval : Option Int) : HttpRequest :=
  mkRequest "POST" "/api/v1/system/keyboard/type"
    (some (.obj [("text", some (.str text)), ("interval", interval.map .num)])) none

/-- pressKey: POST /api/v1/system/keyboard/press. -/
def pressKeyRequest (key : String) : HttpRequest :=
  mkRequest "POST" "/api/v1/system/keyboard/press"
    (some (.obj [("key", some (.str key))])) none

/-- executeSystemCommand: POST /api/v1/system/execute. -/
def executeSystemCommandRequest (command : String) : HttpRequest :=
  mkRequest "POST" "/api/v1/system/execute"
    (some (.obj [("command", some (.str command))])) none

/-- getSystemStatus: GET /api/v1/system/status. -/
def getSystemStatusRequest : HttpRequest :=
  mkRequest "GET" "/api/v1/system/status" none none

/-- testSystemFunctionality: GET /api/v1/system/test. -/
def testSystemFunctionalityRequest : HttpRequest :=
  mkRequest "GET" "/api/v1/system/test" none none

/-- searchFiles: POST /api/v1/files/search with body fields query,
file_type, max_results, search_locations; an omitted optional argument
leaves its field undefined. -/
def searchFilesRequest (query : String) (fileType : Option String)
    (maxResults : Option Nat) (searchLocations : Option (List String)) : HttpRequest :=
  mkRequest "POST" "/api/v1/files/search"
    (some (.obj [("query", some (.str query)),
                 ("file_type", fileType.map .str),
                 ("max_results", maxResults.map fun n => .num n),
                 ("search_locations", searchLocations.map fun xs => .arr (xs.map .str))])) none

/-- getFileInfo: GET /api/v1/files/ENC/info. -/
def getFileInfoRequest (filePath : String) : HttpRequest :=
  mkRequest "GET" ("/api/v1/files/" ++ encodeURIComponent filePath ++ "/info") none none

/-- openFile: POST /api/v1/files/ENC/open. -/
def openFileRequest (filePath : String) : HttpRequest :=
  mkRequest "POST" ("/api/v1/files/" ++ encodeURIComponent filePath ++ "/open") none none

/-- readFile: GET /api/v1/files/ENC/read with query params. -/
def readFileRequest (filePath : String) (encoding : Option String) (maxSize : Option Nat) : HttpRequest :=
  mkRequest "GET" ("/api/v1/files/" ++ encodeURIComponent filePath ++ "/read") none
    (some (.obj [("encoding", encoding.map .str),
                 ("max_size", maxSize.map fun n => .num n)]))

/-- writeFile: POST /api/v1/files/ENC/write. -/
def writeFileRequest (filePath content : String) (encoding : Option String) (backup : Option Bool) : HttpRequest :=
  mkRequest "POST" ("/api/v1/files/" ++ encodeURIComponent filePath ++ "/write")
    (some (.obj [("content", some (.str content)),
                 ("encoding", encoding.map .str),
                 ("backup", backup.map .bool)])) none

/-- listDirectory: GET /api/v1/files/ENC/list with query params. -/
def listDirectoryRequest (dirPath : String) (showHidden : Option Bool) : HttpRequest :=
  mkRequest "GET" ("/api/v1/files/" ++ encodeURIComponent dirPath ++ "/list") none
    (some (.obj [("show_hidden", showHidden.map .bool)]))

/-- createDirectory: POST /api/v1/files/ENC/create. -/
def createDirectoryRequest (dirPath : String) : HttpRequest :=
  mkRequest "POST" ("/api/v1/files/" ++ encodeURIComponent dirPath ++ "/create") none none

/-- copyFile: POST /api/v1/files/ENC/copy. -/
def copyFileRequest (filePath destination : String) : HttpRequest :=
  mkRequest "POST" ("/api/v1/files/" ++ encodeURIComponent filePath ++ "/copy")
    (some (.obj [("destination", some (.str destination))])) none

/-- moveFile: POST /api/v1/files/ENC/move. -/
def moveFileRequest (filePath destination : String) : HttpRequest :=
  mkRequest "POST" ("/api/v1/files/" ++ encodeURIComponent filePath ++ "/move")
    (some (.obj [("destination", some (.str destination))])) none

/-- deleteFile: DELETE /api/v1/files/ENC/delete with query params. -/
def deleteFileRequest (filePath : String) (permanent : Option Bool) : HttpRequest :=
  mkRequest "DELETE" ("/api/v1/files/" ++ encodeURIComponent filePath ++ "/delete") none
    (some (.obj [("permanent", permanent.map .bool)]))

/-- getDiskUsage: GET /api/v1/files/disk-usage with query params. -/
def getDiskUsageRequest (path : Option String) : HttpRequest :=
  mkRequest "GET" "/api/v1/files/disk-usage" none
    (some (.obj [("path", path.map .str)]))

/-- findDuplicates: POST /api/v1/files/duplicates. -/
def findDuplicatesRequest (directory : String) (minSize : Option Nat) : HttpRequest :=
  mkRequest "POST" "/api/v1/files/duplicates"
    (some (.obj [("directory", some (.str directory)),
                 ("min_size", minSize.map fun n => .num n)])) none

/-- cleanupTempFiles: POST /api/v1/files/cleanup. -/
def cleanupTempFilesRequest (tempDirs : Option (List String)) : HttpRequest :=
  mkRequest "POST" "/api/v1/files/cleanup"
    (some (.obj [("temp_dirs", tempDirs.map fun xs => .arr (xs.map .str))])) none

/-- getFileServiceStatus: GET /api/v1/files/status. -/
def getFileServiceStatusRequest : HttpRequest :=
  mkRequest "GET" "/api/v1/files/status" none none

/-- searchWeb: POST /api/v1/media/web/search. -/
def searchWebRequest (query : String) : HttpRequest :=
  mkRequest "POST" "/api/v1/media/web/search"
    (some (.obj [("query", some (.str query))])) none

/-- openWebsite: POST /api/v1/media/website/open. -/
def openWebsiteRequest (site : String) : HttpRequest :=
  mkRequest "POST" "/api/v1/media/website/open"
    (some (.obj [("site", some (.str site))])) none

/-- browseUrl: POST /api/v1/media/browse. -/
def browseUrlRequest (url : String) : HttpRequest :=
  mkRequest "POST" "/api/v1/media/browse"
    (some (.obj [("url", some (.str url))])) none

/-- searchYouTube: POST /api/v1/media/youtube/search. -/
def searchYouTubeRequest (query : String) (maxResults : Option Nat) : HttpRequest :=
  mkRequest "POST" "/api/v1/media/youtube/search"
    (some (.obj [("query", some (.str query)),
                 ("max_results", maxResults.map fun n => .num n)])) none

/-- searchYouTubeDirect: POST /api/v1/media/youtube/search-direct. -/
def searchYouTubeDirectRequest (query : String) : HttpRequest :=
  mkRequest "POST" "/api/v1/media/youtube/search-direct"
    (some (.obj [("query", some (.str query))])) none

/-- playYouTubeVideo: POST /api/v1/media/youtube/play. -/
def playYouTubeVideoRequest (query : String) : HttpRequest :=
  mkRequest "POST" "/api/v1/media/youtube/play"
    (some (.obj [("query", some (.str query))])) none

/-- playMusic: POST /api/v1/media/youtube/music. -/
def playMusicRequest (songName : String) (artist : Option String) : HttpRequest :=
  mkRequest "POST" "/api/v1/media/youtube/music"
    (some (.obj [("song_name", some (.str songName)),
                 ("artist", artist.map .str)])) none

/-- searchTutorials: POST /api/v1/media/youtube/tutorials. -/
def searchTutorialsRequest (topic : String) (maxResults : Option Nat) : HttpRequest :=
  mkRequest "POST" "/api/v1/media/youtube/tutorials"
    (some (.obj [("topic", some (.str topic)),
                 ("max_results", maxResults.map fun n => .num n)])) none

/-- getVideoInfo: POST /api/v1/media/youtube/video-info. -/
def getVideoInfoRequest (url : String) : HttpRequest :=
  mkRequest "POST" "/api/v1/media/youtube/video-info"
    (some (.obj [("url", some (.str url))])) none

/-- createPlaylist: POST /api/v1/media/youtube/playlist. -/
def createPlaylistRequest (videos : List YouTubeVideo) (name : String) : HttpRequest :=
  mkRequest "POST" "/api/v1/media/youtube/playlist"
    (some (.obj [("videos", some (.arr (videos.map youTubeVideoJ))),
                 ("name", some (.str name))])) none

/-- getTrendingVideos: GET /api/v1/media/youtube/trending with query params. -/
def getTrendingVideosRequest (region category : Option String) : HttpRequest :=
  mkRequest "GET" "/api/v1/media/youtube/trending" none
    (some (.obj [("region", region.map .str), ("category", category.map .str)]))

/-- getMediaServiceStatus: GET /api/v1/media/status. -/
def getMediaServiceStatusRequest : HttpRequest :=
  mkRequest "GET" "/api/v1/media/status" none none

/-- constructUrl: POST /api/v1/media/url/construct. -/
def constructUrlRequest (websiteInput : String) : HttpRequest :=
  mkRequest "POST" "/api/v1/media/url/construct"
    (some (.obj [("website_input", some (.str websiteInput))])) none

/- Envelope type and semantics of the private ApiService.request method. -/

/-- Error object of the response envelope, from the frontend type
definitions (details payload carried opaquely). -/
structure ApiErrorInfo where
  error_code : String
  message : String
  details : Option String
deriving DecidableEq

/-- Response envelope of every backend endpoint, from the frontend type
definitions: success flag, optional data, optional error object. -/
structure ApiResponse (α : Type) where
  success : Bool
  data : Option α
  error : Option ApiErrorInfo
deriving DecidableEq

/-- The response attached to a rejected axios call; its data field is the
parsed error response body when one exists. -/
structure ErrorResponse (α : Type) where
  status : Nat
  data : Option α
deriving DecidableEq

/-- An axios rejection value: a message, and the HTTP response when the
server answered at all. -/
structure AxiosError (α : Type) where
  message : String
  response : Option (ErrorResponse α)
deriving DecidableEq

/-- Outcome of the underlying this.client.request call: either the HTTP
call succeeded with a parsed body, or it rejected with an AxiosError. -/
inductive HttpAttempt (α : Type)
| success (body : α)
| failure (err : AxiosError α)

/-- ApiService.request: return the parsed body on success; on failure
return error.response.data when present, otherwise rethrow the error.
Every public ApiService method returns this applied to the transport
outcome of its descriptor. -/
def request {α : Type} (att : HttpAttempt α) : Except (AxiosError α) α :=
  match att with
  | .success body => .ok body
  | .failure e =>
    match e.response with
    | some resp =>
      match resp.data with
      | some body => .ok body
      | none => .error e
    | none => .error e

/- Interceptors registered in the ApiService constructor. Each console
call is modelled as the String component of the returned pair; the
second component is what the interceptor hands back to axios. -/

/-- Axios request config as touched by the interceptors. -/
structure RequestConfig where
  method : Option String
  url : Option String
  headers : List (String × String)
  data : Option JVal
  params : Option JVal

/-- Axios response as touched by the interceptors. -/
structure AxiosResponseVal where
  status : Nat
  data : Option JVal
  config : RequestConfig

/-- Log line of the request interceptor: method upper-cased, then url;
an undefined field prints as the string undefined. -/
def requestLogMsg (c : RequestConfig) : String :=
  "API Request: " ++ (match c.method with
    | some m => m.toUpper
    | none => "undefined") ++ " " ++ c.url.getD "undefined"

/-- Log line of the response interceptor: status, then config url. -/
def responseLogMsg (r : AxiosResponseVal) : String :=
  "API Response: " ++ toString r.status ++ " " ++ r.config.url.getD "undefined"

/-- Request interceptor, fulfilled branch: log and return the config. -/
def onRequestFulfilled (c : RequestConfig) : String × RequestConfig :=
  (requestLogMsg c, c)

/-- Request interceptor, rejected branch: log and re-reject the same error. -/
def onRequestRejected {ε : Type} (e : ε) : String × ε :=
  ("API Request Error", e)

/-- Response interceptor, fulfilled branch: log and return the response. -/
def onResponseFulfilled (r : AxiosResponseVal) : String × AxiosResponseVal :=
  (responseLogMsg r, r)

/-- Response interceptor, rejected branch: log and re-reject the same error. -/
def onResponseRejected {ε : Type} (e : ε) : String × ε :=
  ("API Response Error", e)

/- Route table of App.tsx and sidebar navigation of Layout.tsx. -/

/-- One page component per route element of App.tsx. -/
inductive Page
| dashboard
| chat
| systemInfo
| fileManager
| voiceControl
| settings
| notFound
deriving DecidableEq

/-- The Route declarations of App.tsx, in order, omitting the final
catch-all star route which the matcher handles as its default. -/
def routeTable : List (String × Page) :=
  [("/", .dashboard), ("/chat", .chat), ("/system", .systemInfo),
   ("/files", .fileManager), ("/voice", .voiceControl), ("/settings", .settings)]

/-- Resolution of a location path against the declared route table: the
first declared path equal to the location wins, and the star route
renders NotFound for everything else. Normalizations done inside the
router library (case folding, trailing slashes) are outside the
repository and are not modelled. -/
def matchRoute (p : String) : Page :=
  match routeTable.find? (fun e => p == e.1) with
  | some e => e.2
  | none => Page.notFound

/-- One sidebar entry of the navigation array in Layout.tsx (the icon
component reference is presentation-only and omitted). -/
structure NavItem where
  id : String
  label : String
  path : String
deriving DecidableEq

/-- The navigation array of Layout.tsx, in order. -/
def navigation : List NavItem :=
  [⟨"dashboard", "Dashboard", "/"⟩,
   ⟨"chat", "AI Assistant", "/chat"⟩,
   ⟨"system", "System", "/system"⟩,
   ⟨"files", "Files", "/files"⟩,
   ⟨"voice", "Voice", "/voice"⟩,
   ⟨"settings", "Settings", "/settings"⟩]

/-- The six feature-page paths, as the spec lists them. -/
def featurePaths : List String :=
  ["/", "/chat", "/system", "/files", "/voice", "/settings"]

/- Chat page model: handleSendMessage of Chat.tsx. -/

/-- Message author, from the ChatMessage type. -/
inductive MsgType
| user
| assistant
deriving DecidableEq

/-- ChatMessage from the frontend type definitions. Date.now() and
new Date() are both modelled by the Nat clock value passed to
handleSendMessage; the free-form data payload is carried opaquely. -/
structure ChatMessage where
  id : String
  type : MsgType
  content : String
  timestamp : Nat
  action : Option String
  data : Option String
deriving DecidableEq

/-- CommandResponse from the frontend type definitions (the data map
carried opaquely, execution_time as a Nat). -/
structure CommandResponse where
  success : Bool
  response : String
  action : String
  execution_time : Nat
  data : Option String
deriving DecidableEq

/-- The component state of Chat.tsx that handleSendMessage touches. -/
structure ChatState where
  messages : List ChatMessage
  input : String
  isLoading : Bool
deriving DecidableEq

/-- Outcome of the awaited apiService.executeCommand call: the promise
resolved to an envelope, or it threw. -/
inductive CmdOutcome
| resolved (response : ApiResponse CommandResponse)
| threw
deriving DecidableEq

/-- JavaScript String.prototype.trim: drop whitespace characters from
both ends of the string. -/
def jsTrim (s : String) : String :=
  ⟨((s.data.dropWhile Char.isWhitespace).reverse.dropWhile Char.isWhitespace).reverse⟩

/-- Assistant message appended by the branches of handleSendMessage.
JavaScript truthiness of the short-circuit expressions is translated
exactly: a present but empty response or error message string is falsy,
so the literal fallback is used. -/
def assistantReply (now : Nat) (out : CmdOutcome) : ChatMessage :=
  match out with
  | .resolved r =>
    match r.success, r.data with
    | true, some d =>
      ⟨toString (now + 1), .assistant,
       (if d.response = "" then "Command executed successfully" else d.response),
       now, some d.action, d.data⟩
    | _, _ =>
      ⟨toString (now + 1), .assistant,
       (match r.error with
        | some err => if err.message = "" then "Sorry, something went wrong." else err.message
        | none => "Sorry, something went wrong."),
       now, none, none⟩
  | .threw =>
    ⟨toString (now + 1), .assistant,
     "Sorry, I encountered an error while processing your request.",
     now, none, none⟩

/-- handleSendMessage of Chat.tsx: guard on empty trimmed input or an
in-flight command; otherwise append the user message, clear the input,
run exactly one executeCommand call, append the one assistant message of
the taken branch, and finally drop the loading flag. The second
component lists the executeCommand requests issued during the call. -/
def handleSendMessage (now : Nat) (s : ChatState) (out : CmdOutcome) :
    ChatState × List CommandRequest :=
  if jsTrim s.input = "" || s.isLoading then (s, [])
  else
    let userMessage : ChatMessage := ⟨toString now, .user, jsTrim s.input, now, none, none⟩
    (⟨s.messages ++ [userMessage, assistantReply now out], "", false⟩,
     [⟨userMessage.content, some "user", none⟩])

/- Status snapshot models: SystemInfo.tsx and Dashboard.tsx data loads. -/

/-- ScreenInfo from the frontend type definitions. -/
structure ScreenInfoD where
  width : Int
  height : Int
  resolution : String
  failsafe_enabled : Bool
  pause_duration : Int
  primary_monitor : Bool
deriving DecidableEq

/-- SystemInfo payload from the frontend type definitions. -/
structure SystemInfoD where
  os : String
  platform : String
  architecture : List String
  processor : String
  python_version : String
  search_locations : List String
  installed_apps_count : Nat
  screen_size : Int × Int
  windows_version : Option String
  computer_name : Option String
  user_name : Option String
deriving DecidableEq

/-- Vision status block of AppStatus. -/
structure VisionStatusD where
  screen_capture : Bool
  ai_analysis : Bool
  clicking : Bool
  scrolling : Bool
  errors : List String
  success : Bool
deriving DecidableEq

/-- Capabilities block of AppStatus. -/
structure CapabilitiesD where
  screen_capture : Bool
  ai_analysis : Bool
  clicking : Bool
  scrolling : Bool
  typing : Bool
  keyboard : Bool
  app_management : Bool
  file_operations : Bool
deriving DecidableEq

/-- Overall status discriminator of AppStatus. -/
inductive OpStatus
| operational
| degraded
| offline
deriving DecidableEq

/-- AppStatus payload from the frontend type definitions. -/
structure AppStatusD where
  system : SystemInfoD
  screen : ScreenInfoD
  vision : VisionStatusD
  capabilities : CapabilitiesD
  status : OpStatus
deriving DecidableEq

/-- CPU block of DiagnosticsData. -/
structure CpuDiag where
  usage : Nat
  cores : Nat
  temperature : Option Nat
deriving DecidableEq

/-- Memory block of DiagnosticsData. -/
structure MemDiag where
  total : Nat
  used : Nat
  available : Nat
  percentage : Nat
deriving DecidableEq

/-- DiskUsage record from the frontend type definitions. -/
structure DiskUsageD where
  path : String
  total_bytes : Nat
  used_bytes : Nat
  free_bytes : Nat
  usage_percent : Nat
deriving DecidableEq

/-- Network block of DiagnosticsData. -/
structure NetDiag where
  connected : Bool
  download_speed : Option Nat
  upload_speed : Option Nat
deriving DecidableEq

/-- Per-service status of DiagnosticsData. -/
inductive SvcStatus
| online
| offline
| error
deriving DecidableEq

/-- Services block of DiagnosticsData. -/
structure ServicesDiag where
  ai : SvcStatus
  voice : SvcStatus
  vision : SvcStatus
  system : SvcStatus
  files : SvcStatus
  media : SvcStatus
deriving DecidableEq

/-- DiagnosticsData from the frontend type definitions. -/
structure DiagnosticsD where
  cpu : CpuDiag
  memory : MemDiag
  disk : List DiskUsageD
  network : NetDiag
  services : ServicesDiag
deriving DecidableEq

/-- The mock diagnostics object set on every resolved dashboard load. -/
def mockDiagnostics : DiagnosticsD :=
  ⟨⟨45, 8, none⟩, ⟨16384, 8192, 8192, 50⟩, [], ⟨true, none, none⟩,
   ⟨.online, .online, .online, .online, .online, .online⟩⟩

/-- The component state of SystemInfo.tsx that loadSystemInfo touches. -/
structure SysInfoState where
  systemInfo : Option SystemInfoD
  appStatus : Option AppStatusD
  loading : Bool
  refreshing : Bool
deriving DecidableEq

/-- Outcome of one loadSystemInfo call: the Promise.all either resolved
with both envelopes or threw (so neither snapshot is touched). -/
inductive SysFetch
| resolved (systemResponse : ApiResponse SystemInfoD) (statusResponse : ApiResponse AppStatusD)
| threw
deriving DecidableEq

/-- loadSystemInfo of SystemInfo.tsx as a state transition over one
completed call: each snapshot is overwritten with the envelope's data
exactly when that envelope has success true, and the loading and
refreshing flags end false in every branch. -/
def loadSystemInfo (s : SysInfoState) : SysFetch → SysInfoState
| .resolved r1 r2 =>
  ⟨(if r1.success then r1.data else s.systemInfo),
   (if r2.success then r2.data else s.appStatus), false, false⟩
| .threw => { s with loading := false, refreshing := false }

/-- Fold of loadSystemInfo over a sequence of completed calls. -/
def runLoadsSI : SysInfoState → List SysFetch → SysInfoState
| s, [] => s
| s, f :: fs => runLoadsSI (loadSystemInfo s f) fs

/-- The component state of Dashboard.tsx that loadDashboardData touches
(recentActivity is never written and is omitted). -/
structure DashboardState where
  appStatus : Option AppStatusD
  diagnostics : Option DiagnosticsD
  loading : Bool
deriving DecidableEq

/-- Outcome of one loadDashboardData call: the awaited getSystemStatus
either resolved with an envelope or threw. -/
inductive DashFetch
| resolved (statusResponse : ApiResponse AppStatusD)
| threw
deriving DecidableEq

/-- loadDashboardData of Dashboard.tsx as a state transition over one
completed call: appStatus is overwritten on a success-true envelope,
the mock diagnostics are installed on any resolved call, and loading
ends false in every branch. -/
def loadDashboardData (s : DashboardState) : DashFetch → DashboardState
| .resolved r =>
  ⟨(if r.success then r.data else s.appStatus), some mockDiagnostics, false⟩
| .threw => { s with loading := false }

/-- Fold of loadDashboardData over a sequence of completed calls. -/
def runLoadsDash : DashboardState → List DashFetch → DashboardState
| s, [] => s
| s, f :: fs => runLoadsDash (loadDashboardData s f) fs

/-- The envelope of the most recent fetch with success true: its data
field, or the given prior snapshot when no fetch succeeded. -/
def latestSuccessData {α : Type} (init : Option α) (rs : List (ApiResponse α)) : Option α :=
  match (rs.filter (fun r => r.success)).getLast? with
  | some r => r.data
  | none => init

/-- The SystemInfo envelope of a completed SystemInfo.tsx load. -/
def sysEnv : SysFetch → Option (ApiResponse SystemInfoD)
| .resolved r1 _ => some r1
| .threw => none

/-- The AppStatus envelope of a completed SystemInfo.tsx load. -/
def statusEnv : SysFetch → Option (ApiResponse AppStatusD)
| .resolved _ r2 => some r2
| .threw => none

/-- The AppStatus envelope of a completed Dashboard.tsx load. -/
def dashEnv : DashFetch → Option (ApiResponse AppStatusD)
| .resolved r => some r
| .threw => none

/- Dashboard polling model: the useEffect of Dashboard.tsx installs a
setInterval(loadDashboardData, 5000) on mount and its cleanup clears the
interval on unmount. Timer semantics: an active interval with period p
fires once each time p further milliseconds have elapsed. -/

/-- Timer state of the dashboard effect: the active interval as its
period together with the milliseconds elapsed since its last fire. -/
structure DashTimers where
  interval : Option (Nat × Nat)
deriving DecidableEq

/-- Events of the dashboard component lifecycle. -/
inductive DashEvent
| mount
| elapse (ms : Nat)
| unmount
deriving DecidableEq

/-- One lifecycle step, returning the new timer state and the number of
loadDashboardData invocations the step causes: mounting runs the load
once and installs the 5000 ms interval, elapsed time fires the interval
once per full period, and unmounting clears the interval. -/
def dashStep : DashTimers → DashEvent → DashTimers × Nat
| _, .mount => (⟨some (5000, 0)⟩, 1)
| s, .elapse ms =>
  match s.interval with
  | some (p, acc) => (⟨some (p, (acc + ms) % p)⟩, (acc + ms) / p)
  | none => (s, 0)
| _, .unmount => (⟨none⟩, 0)

/-- Run of the dashboard lifecycle: final timer state and the total
number of loadDashboardData invocations. -/
def dashRun : DashTimers → List DashEvent → DashTimers × Nat
| s, [] => (s, 0)
| s, e :: evs =>
  let r := dashStep s e
  let rest := dashRun r.1 evs
  (rest.1, r.2 + rest.2)

/-- Timer state before the component mounts. -/
def dashInitialTimers : DashTimers := ⟨none⟩

/-- Boolean string comparison used to state URL namespace facts: the
first string is an initial segment of the second. -/
def strStartsWith (p s : String) : Bool :=
  p.data.isPrefixOf s.data

/-- A URL lies under one of the four versioned REST namespaces of the
backend: commands, system, files, or media. -/
def inCoreNamespace (u : String) : Bool :=
  strStartsWith "/api/v1/commands/" u || strStartsWith "/api/v1/system/" u
    || strStartsWith "/api/v1/files/" u || strStartsWith "/api/v1/media/" u

/-- The file-search call as the spec and the README document it: a POST
to /api/v1/files/search whose JSON body has the fields query, file_type,
max_results and search_locations, each optional field left undefined
when the corresponding argument is omitted. -/
def searchFilesRequestDocumented (query : String) (fileType : Option String)
    (maxResults : Option Nat) (searchLocations : Option (List String)) : HttpRequest :=
  { method := "POST"
    url := "/api/v1/files/search"
    data := some (.obj [("query", some (.str query)),
                        ("file_type", fileType.map .str),
                        ("max_results", maxResults.map fun n => .num n),
                        ("search_locations", searchLocations.map fun xs => .arr (xs.map .str))])
    params := none }

/- Helper lemmas. -/

/-- An initial segment of a list is an initial segment of any extension. -/
lemma isPrefixOf_append_extend (l1 l2 l3 : List Char)
    (h : l1.isPrefixOf l2 = true) : l1.isPrefixOf (l2 ++ l3) = true := by
  induction l1 generalizing l2 with
  | nil => simp [List.isPrefixOf]
  | cons a as ih =>
    cases l2 with
    | nil => simp [List.isPrefixOf] at h
    | cons b bs =>
      simp only [List.isPrefixOf, List.cons_append, Bool.and_eq_true] at h ⊢
      exact ⟨h.1, ih bs h.2⟩

/-- strStartsWith survives appending to the right of the larger string. -/
lemma strStartsWith_append (p q t : String)
    (h : strStartsWith p q = true) : strStartsWith p (q ++ t) = true := by
  unfold strStartsWith at h ⊢
  have hd : (q ++ t).data = q.data ++ t.data := rfl
  rw [hd]
  exact isPrefixOf_append_extend p.data q.data t.data h

/-- strStartsWith survives appending twice to the right. -/
lemma strStartsWith_append2 (p q r s : String)
    (h : strStartsWith p q = true) : strStartsWith p (q ++ r ++ s) = true :=
  strStartsWith_append p (q ++ r) s (strStartsWith_append p q r h)

/-- A URL with the commands name-spaced start is in the core namespace. -/
lemma inCore_commands (u : String) (h : strStartsWith "/api/v1/commands/" u = true) :
    inCoreNamespace u = true := by
  simp [inCoreNamespace, h]

/-- A URL with the system name-spaced start is in the core namespace. -/
lemma inCore_system (u : String) (h : strStartsWith "/api/v1/system/" u = true) :
    inCoreNamespace u = true := by
  simp [inCoreNamespace, h]

/-- A URL with the files name-spaced start is in the core namespace. -/
lemma inCore_files (u : String) (h : strStartsWith "/api/v1/files/" u = true) :
    inCoreNamespace u = true := by
  simp [inCoreNamespace, h]

/-- A URL with the media name-spaced start is in the core namespace. -/
lemma inCore_media (u : String) (h : strStartsWith "/api/v1/media/" u = true) :
    inCoreNamespace u = true := by
  simp [inCoreNamespace, h]

/- Claim theorems. -/

/-- Claim C1: the private request method resolves to the envelope: on a
successful HTTP call the parsed response body is returned as-is; on a
failed call whose error carries a response body, that body is returned
instead of throwing; and only an error with no response body is
re-thrown (every public ApiService method returns request applied to the
transport outcome of its descriptor). -/
theorem c1_request_envelope_semantics (α : Type) :
    (∀ b : ApiResponse α, request (.success b) = Except.ok b) ∧
    (∀ (msg : String) (st : Nat) (b : ApiResponse α),
      request (.failure ⟨msg, some ⟨st, some b⟩⟩) = Except.ok b) ∧
    (∀ (msg : String) (st : Nat),
      request (.failure (α := ApiResponse α) ⟨msg, some ⟨st, none⟩⟩) =
        Except.error ⟨msg, some ⟨st, none⟩⟩) ∧
    (∀ msg : String,
      request (.failure (α := ApiResponse α) ⟨msg, none⟩) = Except.error ⟨msg, none⟩) :=
  ⟨fun _ => rfl, fun _ _ _ => rfl, fun _ _ => rfl, fun _ => rfl⟩

/-- Claim C3: for every combination of provided and omitted optional
arguments, searchFiles serializes exactly the documented POST to
/api/v1/files/search with body fields query, file_type, max_results and
search_locations. -/
theorem c3_searchFiles_serialization (query : String) (fileType : Option String)
    (maxResults : Option Nat) (searchLocations : Option (List String)) :
    searchFilesRequest query fileType maxResults searchLocations =
      searchFilesRequestDocumented query fileType maxResults searchLocations :=
  rfl

/-- Claim C8: the interceptors are logging-only: the fulfilled branches
return their argument unchanged (in particular method, URL, headers,
body, params, response data and status are untouched) and the rejected
branches re-reject the very same error value. -/
theorem c8_interceptors_logging_only (ε : Type) :
    (∀ c : RequestConfig,
      (onRequestFulfilled c).2 = c ∧
      (onRequestFulfilled c).2.method = c.method ∧
      (onRequestFulfilled c).2.url = c.url ∧
      (onRequestFulfilled c).2.headers = c.headers ∧
      (onRequestFulfilled c).2.data = c.data ∧
      (onRequestFulfilled c).2.params = c.params) ∧
    (∀ e : ε, (onRequestRejected e).2 = e) ∧
    (∀ r : AxiosResponseVal,
      (onResponseFulfilled r).2 = r ∧
      (onResponseFulfilled r).2.data = r.data ∧
      (onResponseFulfilled r).2.status = r.status) ∧
    (∀ e : ε, (onResponseRejected e).2 = e) :=
  ⟨fun _ => ⟨rfl, rfl, rfl, rfl, rfl, rfl⟩, fun _ => rfl,
   fun _ => ⟨rfl, rfl, rfl⟩, fun _ => rfl⟩

/-- Claim C9: sending is a no-op when the trimmed input is empty or a
command is still in flight: the state (messages, input, loading flag) is
returned unchanged and no executeCommand request is issued. -/
theorem c9_send_noop_on_empty_or_loading (now : Nat) (s : ChatState) (out : CmdOutcome)
    (h : jsTrim s.input = "" ∨ s.isLoading = true) :
    handleSendMessage now s out = (s, []) := by
  unfold handleSendMessage
  rcases h with h | h <;> simp [h]

/-- Witness for C9 at a whitespace-only input. -/
theorem c9_send_noop_witness :
    (jsTrim "  " = "" ∨ (⟨[], "  ", false⟩ : ChatState).isLoading = true) ∧
    handleSendMessage 7 ⟨[], "  ", false⟩ CmdOutcome.threw = (⟨[], "  ", false⟩, []) := by
  refine ⟨Or.inl (by decide), ?_⟩
  exact c9_send_noop_on_empty_or_loading 7 ⟨[], "  ", false⟩ CmdOutcome.threw (Or.inl (by decide))

/-- Claim C10: every completed send appends exactly two messages to the
list, first the user message carrying the trimmed input and then exactly
one assistant message, leaving every existing message in place. -/
theorem c10_send_appends_user_then_assistant (now : Nat) (s : ChatState) (out : CmdOutcome)
    (h1 : jsTrim s.input ≠ "") (h2 : s.isLoading = false) :
    ∃ a : ChatMessage,
      (handleSendMessage now s out).1.messages =
        s.messages ++ [⟨toString now, MsgType.user, jsTrim s.input, now, none, none⟩, a] ∧
      a.type = MsgType.assistant := by
  refine ⟨assistantReply now out, ?_, ?_⟩
  · unfold handleSendMessage
    simp [h1, h2]
  · cases out with
    | resolved r =>
      cases hs : r.success <;> cases hd : r.data <;> simp [assistantReply, hs, hd]
    | threw => rfl

/-- Witness for C10 at a concrete send whose command call throws. -/
theorem c10_send_appends_witness :
    (jsTrim "hi" ≠ "" ∧ (⟨[], "hi", false⟩ : ChatState).isLoading = false) ∧
    ∃ a : ChatMessage,
      (handleSendMessage 0 ⟨[], "hi", false⟩ CmdOutcome.threw).1.messages =
        [] ++ [⟨toString 0, MsgType.user, jsTrim "hi", 0, none, none⟩, a] ∧
      a.type = MsgType.assistant := by
  refine ⟨⟨by decide, rfl⟩, ?_⟩
  exact c10_send_appends_user_then_assistant 0 ⟨[], "hi", false⟩ CmdOutcome.threw (by decide) rfl

/-- Claim C2 counterexample: with an error object present whose message
is the empty string, the appended assistant bubble carries the generic
text, not the error object's message, because the code uses a JavaScript
short-circuit that treats the empty message as falsy. -/
theorem c2_error_message_counterexample :
    ((handleSendMessage 0 ⟨[], "hi", false⟩
        (CmdOutcome.resolved ⟨false, none, some ⟨"ERR", "", none⟩⟩)).1.messages.getLast?).map
        (fun m => m.content) = some "Sorry, something went wrong." ∧
    (⟨"ERR", "", none⟩ : ApiErrorInfo).message ≠ "Sorry, something went wrong." := by
  exact ⟨rfl, by decide⟩

/-- The failure-bubble text the amended claim C2 predicts: the error
object's message when it is present and non-empty, the generic text
otherwise. -/
def expectedFailureContent (e : Option ApiErrorInfo) : String :=
  match e with
  | some err => if err.message = "" then "Sorry, something went wrong." else err.message
  | none => "Sorry, something went wrong."

/-- Claim C2 (amended): on a send whose executeCommand envelope has
success false or missing data, exactly one assistant message is appended
whose content is the error object's message when present and non-empty
and the generic text otherwise; when the call throws, the appended
content is the fixed exception text; in every failure case exactly one
request is issued, so nothing is retried. -/
theorem c2_chat_failure_bubbles (now : Nat) (s : ChatState) (r : ApiResponse CommandResponse)
    (h1 : jsTrim s.input ≠ "") (h2 : s.isLoading = false)
    (hfail : r.success = false ∨ r.data = none) :
    ((handleSendMessage now s (.resolved r)).1.messages =
      s.messages ++ [⟨toString now, MsgType.user, jsTrim s.input, now, none, none⟩,
        ⟨toString (now + 1), MsgType.assistant, expectedFailureContent r.error, now, none, none⟩]) ∧
    (handleSendMessage now s (.resolved r)).2 = [⟨jsTrim s.input, some "user", none⟩] ∧
    ((handleSendMessage now s .threw).1.messages =
      s.messages ++ [⟨toString now, MsgType.user, jsTrim s.input, now, none, none⟩,
        ⟨toString (now + 1), MsgType.assistant,
          "Sorry, I encountered an error while processing your request.", now, none, none⟩]) ∧
    (handleSendMessage now s .threw).2 = [⟨jsTrim s.input, some "user", none⟩] := by
  have hrep : assistantReply now (.resolved r) =
      ⟨toString (now + 1), MsgType.assistant, expectedFailureContent r.error, now, none, none⟩ := by
    rcases hfail with hs | hd
    · cases hd : r.data <;> simp [assistantReply, hs, hd, expectedFailureContent]
    · cases hs : r.success <;> simp [assistantReply, hs, hd, expectedFailureContent]
  refine ⟨?_, ?_, ?_, ?_⟩
  · simp [handleSendMessage, h1, h2, hrep]
  · simp [handleSendMessage, h1, h2]
  · simp [handleSendMessage, h1, h2, assistantReply]
  · simp [handleSendMessage, h1, h2]

/-- Witness for the amended claim C2 at a concrete failing envelope. -/
theorem c2_chat_failure_witness :
    (jsTrim "hi" ≠ "" ∧ (⟨[], "hi", false⟩ : ChatState).isLoading = false ∧
      ((⟨false, none, some ⟨"ERR", "boom", none⟩⟩ : ApiResponse CommandResponse).success = false ∨
        (⟨false, none, some ⟨"ERR", "boom", none⟩⟩ : ApiResponse CommandResponse).data = none)) ∧
    ((handleSendMessage 3 ⟨[], "hi", false⟩
        (.resolved ⟨false, none, some ⟨"ERR", "boom", none⟩⟩)).1.messages =
      [] ++ [⟨toString 3, MsgType.user, jsTrim "hi", 3, none, none⟩,
        ⟨toString (3 + 1), MsgType.assistant,
          expectedFailureContent (some ⟨"ERR", "boom", none⟩), 3, none, none⟩]) ∧
    (handleSendMessage 3 ⟨[], "hi", false⟩
        (.resolved ⟨false, none, some ⟨"ERR", "boom", none⟩⟩)).2 =
      [⟨jsTrim "hi", some "user", none⟩] := by
  refine ⟨⟨by decide, rfl, Or.inl rfl⟩, ?_, ?_⟩
  · exact (c2_chat_failure_bubbles 3 ⟨[], "hi", false⟩ ⟨false, none, some ⟨"ERR", "boom", none⟩⟩
      (by decide) rfl (Or.inl rfl)).1
  · exact (c2_chat_failure_bubbles 3 ⟨[], "hi", false⟩ ⟨false, none, some ⟨"ERR", "boom", none⟩⟩
      (by decide) rfl (Or.inl rfl)).2.1

/-- A path resolves to NotFound exactly when it is none of the six
declared feature paths. -/
lemma matchRoute_notFound_iff (p : String) : matchRoute p = Page.notFound ↔ p ∉ featurePaths := by
  by_cases h1 : p = "/"
  · subst h1; decide
  by_cases h2 : p = "/chat"
  · subst h2; decide
  by_cases h3 : p = "/system"
  · subst h3; decide
  by_cases h4 : p = "/files"
  · subst h4; decide
  by_cases h5 : p = "/voice"
  · subst h5; decide
  by_cases h6 : p = "/settings"
  · subst h6; decide
  constructor
  · intro _
    simp [featurePaths, h1, h2, h3, h4, h5, h6]
  · intro _
    unfold matchRoute routeTable
    rw [List.find?_cons_of_neg _ (by simp [h1]), List.find?_cons_of_neg _ (by simp [h2]),
        List.find?_cons_of_neg _ (by simp [h3]), List.find?_cons_of_neg _ (by simp [h4]),
        List.find?_cons_of_neg _ (by simp [h5]), List.find?_cons_of_neg _ (by simp [h6])]
    rfl

/-- Claim C7: the route table maps exactly the six feature pages to
their paths, every other path resolves to NotFound, and the sidebar
navigation lists exactly these six paths, one entry per feature page. -/
theorem c7_routes_and_navigation :
    matchRoute "/" = Page.dashboard ∧ matchRoute "/chat" = Page.chat ∧
    matchRoute "/system" = Page.systemInfo ∧ matchRoute "/files" = Page.fileManager ∧
    matchRoute "/voice" = Page.voiceControl ∧ matchRoute "/settings" = Page.settings ∧
    (∀ p : String, matchRoute p = Page.notFound ↔ p ∉ featurePaths) ∧
    navigation.map (fun n => n.path) = featurePaths ∧
    routeTable.map (fun e => e.1) = featurePaths :=
  ⟨by decide, by decide, by decide, by decide, by decide, by decide,
   matchRoute_notFound_iff, by decide, by decide⟩

/-- Claim C4 counterexample: the client also issues GET /health and
GET /api/docs, neither of which lies under any of the four versioned
namespaces, so not every issued request is namespaced. -/
theorem c4_unnamespaced_counterexample :
    getHealthRequest.url = "/health" ∧ inCoreNamespace getHealthRequest.url = false ∧
    getApiDocsRequest.url = "/api/docs" ∧ inCoreNamespace getApiDocsRequest.url = false :=
  ⟨rfl, by decide, rfl, by decide⟩

/-- Claim C4 (amended): apart from the health check GET /health and the
documentation fetch GET /api/docs, every HTTP request the API client can
issue targets a versioned REST endpoint under the commands, system,
files, or media namespace, for all argument values; the methods listed
here are the entirety of the HTTP surface the client consumes. -/
theorem c4_versioned_namespaces :
    (getHealthRequest.url = "/health" ∧ getApiDocsRequest.url = "/api/docs") ∧
    (∀ r, inCoreNamespace (executeCommandRequest r).url = true) ∧
    (∀ c, inCoreNamespace (interpretCommandRequest c).url = true) ∧
    inCoreNamespace getCommandHistoryRequest.url = true ∧
    (∀ c, inCoreNamespace (getCommandSuggestionsRequest c).url = true) ∧
    inCoreNamespace getSystemInfoRequest.url = true ∧
    inCoreNamespace getInstalledApplicationsRequest.url = true ∧
    (∀ a h, inCoreNamespace (openApplicationRequest a h).url = true) ∧
    (∀ n ps, inCoreNamespace (openFolderRequest n ps).url = true) ∧
    (∀ rg, inCoreNamespace (captureScreenRequest rg).url = true) ∧
    (∀ q rg, inCoreNamespace (analyzeScreenRequest q rg).url = true) ∧
    (∀ x y d, inCoreNamespace (clickScreenRequest x y d).url = true) ∧
    (∀ dr am x y, inCoreNamespace (scrollScreenRequest dr am x y).url = true) ∧
    (∀ t i, inCoreNamespace (typeTextRequest t i).url = true) ∧
    (∀ k, inCoreNamespace (pressKeyRequest k).url = true) ∧
    (∀ c, inCoreNamespace (executeSystemCommandRequest c).url = true) ∧
    inCoreNamespace getSystemStatusRequest.url = true ∧
    inCoreNamespace testSystemFunctionalityRequest.url = true ∧
    (∀ q ft mr sl, inCoreNamespace (searchFilesRequest q ft mr sl).url = true) ∧
    (∀ fp, inCoreNamespace (getFileInfoRequest fp).url = true) ∧
    (∀ fp, inCoreNamespace (openFileRequest fp).url = true) ∧
    (∀ fp e m, inCoreNamespace (readFileRequest fp e m).url = true) ∧
    (∀ fp c e b, inCoreNamespace (writeFileRequest fp c e b).url = true) ∧
    (∀ dp sh, inCoreNamespace (listDirectoryRequest dp sh).url = true) ∧
    (∀ dp, inCoreNamespace (createDirectoryRequest dp).url = true) ∧
    (∀ fp d, inCoreNamespace (copyFileRequest fp d).url = true) ∧
    (∀ fp d, inCoreNamespace (moveFileRequest fp d).url = true) ∧
    (∀ fp pm, inCoreNamespace (deleteFileRequest fp pm).url = true) ∧
    (∀ p, inCoreNamespace (getDiskUsageRequest p).url = true) ∧
    (∀ d m, inCoreNamespace (findDuplicatesRequest d m).url = true) ∧
    (∀ td, inCoreNamespace (cleanupTempFilesRequest td).url = true) ∧
    inCoreNamespace getFileServiceStatusRequest.url = true ∧
    (∀ q, inCoreNamespace (searchWebRequest q).url = true) ∧
    (∀ s, inCoreNamespace (openWebsiteRequest s).url = true) ∧
    (∀ u, inCoreNamespace (browseUrlRequest u).url = true) ∧
    (∀ q m, inCoreNamespace (searchYouTubeRequest q m).url = true) ∧
    (∀ q, inCoreNamespace (searchYouTubeDirectRequest q).url = true) ∧
    (∀ q, inCoreNamespace (playYouTubeVideoRequest q).url = true) ∧
    (∀ sn a, inCoreNamespace (playMusicRequest sn a).url = true) ∧
    (∀ t m, inCoreNamespace (searchTutorialsRequest t m).url = true) ∧
    (∀ u, inCoreNamespace (getVideoInfoRequest u).url = true) ∧
    (∀ v n, inCoreNamespace (createPlaylistRequest v n).url = true) ∧
    (∀ r c, inCoreNamespace (getTrendingVideosRequest r c).url = true) ∧
    inCoreNamespace getMediaServiceStatusRequest.url = true ∧
    (∀ w, inCoreNamespace (constructUrlRequest w).url = true) :=
  ⟨⟨rfl, rfl⟩,
   fun _ => (by decide : inCoreNamespace ("/api/v1/commands/execute" : String) = true),
   fun _ => (by decide : inCoreNamespace ("/api/v1/commands/interpret" : String) = true),
   by decide,
   fun _ => (by decide : inCoreNamespace ("/api/v1/commands/suggest" : String) = true),
   by decide,
   by decide,
   fun a _ => inCore_system _ (strStartsWith_append2 "/api/v1/system/"
     "/api/v1/system/applications/" (encodeURIComponent a) "/open" (by decide)),
   fun _ _ => (by decide : inCoreNamespace ("/api/v1/system/folders/open" : String) = true),
   fun _ => (by decide : inCoreNamespace ("/api/v1/system/screen/capture" : String) = true),
   fun _ _ => (by decide : inCoreNamespace ("/api/v1/system/screen/analyze" : String) = true),
   fun _ _ _ => (by decide : inCoreNamespace ("/api/v1/system/screen/click" : String) = true),
   fun _ _ _ _ => (by decide : inCoreNamespace ("/api/v1/system/screen/scroll" : String) = true),
   fun _ _ => (by decide : inCoreNamespace ("/api/v1/system/keyboard/type" : String) = true),
   fun _ => (by decide : inCoreNamespace ("/api/v1/system/keyboard/press" : String) = true),
   fun _ => (by decide : inCoreNamespace ("/api/v1/system/execute" : String) = true),
   by decide,
   by decide,
   fun _ _ _ _ => (by decide : inCoreNamespace ("/api/v1/files/search" : String) = true),
   fun fp => inCore_files _ (strStartsWith_append2 "/api/v1/files/"
     "/api/v1/files/" (encodeURIComponent fp) "/info" (by decide)),
   fun fp => inCore_files _ (strStartsWith_append2 "/api/v1/files/"
     "/api/v1/files/" (encodeURIComponent fp) "/open" (by decide)),
   fun fp _ _ => inCore_files _ (strStartsWith_append2 "/api/v1/files/"
     "/api/v1/files/" (encodeURIComponent fp) "/read" (by decide)),
   fun fp _ _ _ => inCore_files _ (strStartsWith_append2 "/api/v1/files/"
     "/api/v1/files/" (encodeURIComponent fp) "/write" (by decide)),
   fun fp _ => inCore_files _ (strStartsWith_append2 "/api/v1/files/"
     "/api/v1/files/" (encodeURIComponent fp) "/list" (by decide)),
   fun fp => inCore_files _ (strStartsWith_append2 "/api/v1/files/"
     "/api/v1/files/" (encodeURIComponent fp) "/create" (by decide)),
   fun fp _ => inCore_files _ (strStartsWith_append2 "/api/v1/files/"
     "/api/v1/files/" (encodeURIComponent fp) "/copy" (by decide)),
   fun fp _ => inCore_files _ (strStartsWith_append2 "/api/v1/files/"
     "/api/v1/files/" (encodeURIComponent fp) "/move" (by decide)),
   fun fp _ => inCore_files _ (strStartsWith_append2 "/api/v1/files/"
     "/api/v1/files/" (encodeURIComponent fp) "/delete" (by decide)),
   fun _ => (by decide : inCoreNamespace ("/api/v1/files/disk-usage" : String) = true),
   fun _ _ => (by decide : inCoreNamespace ("/api/v1/files/duplicates" : String) = true),
   fun _ => (by decide : inCoreNamespace ("/api/v1/files/cleanup" : String) = true),
   by decide,
   fun _ => (by decide : inCoreNamespace ("/api/v1/media/web/search" : String) = true),
   fun _ => (by decide : inCoreNamespace ("/api/v1/media/website/open" : String) = true),
   fun _ => (by decide : inCoreNamespace ("/api/v1/media/browse" : String) = true),
   fun _ _ => (by decide : inCoreNamespace ("/api/v1/media/youtube/search" : String) = true),
   fun _ => (by decide : inCoreNamespace ("/api/v1/media/youtube/search-direct" : String) = true),
   fun _ => (by decide : inCoreNamespace ("/api/v1/media/youtube/play" : String) = true),
   fun _ _ => (by decide : inCoreNamespace ("/api/v1/media/youtube/music" : String) = true),
   fun _ _ => (by decide : inCoreNamespace ("/api/v1/media/youtube/tutorials" : String) = true),
   fun _ => (by decide : inCoreNamespace ("/api/v1/media/youtube/video-info" : String) = true),
   fun _ _ => (by decide : inCoreNamespace ("/api/v1/media/youtube/playlist" : String) = true),
   fun _ _ => (by decide : inCoreNamespace ("/api/v1/media/youtube/trending" : String) = true),
   by decide,
   fun _ => (by decide : inCoreNamespace ("/api/v1/media/url/construct" : String) = true)⟩

/-- The last element of a non-empty list, phrased through getLast? of
the tail with the head as default. -/
lemma getLast?_cons_getD {β : Type} (a : β) (l : List β) :
    (a :: l).getLast? = some (l.getLast?.getD a) := by
  induction l generalizing a with
  | nil => rfl
  | cons b l ih =>
    rw [List.getLast?_cons_cons, ih b]
    rfl

/-- Prepending one envelope to the fetch history folds it into the
prior snapshot exactly as the success test does. -/
lemma latestSuccessData_cons {α : Type} (init : Option α) (r : ApiResponse α)
    (rs : List (ApiResponse α)) :
    latestSuccessData init (r :: rs) =
      latestSuccessData (if r.success then r.data else init) rs := by
  unfold latestSuccessData
  rw [List.filter_cons]
  cases hs : r.success
  · simp [hs]
  · rw [if_pos rfl, if_pos rfl, getLast?_cons_getD]
    cases h : (rs.filter (fun r => r.success)).getLast? <;> simp [h]

/-- The systemInfo snapshot after a run of SystemInfo loads is the data
of the latest success-true SystemInfo envelope. -/
lemma runLoadsSI_systemInfo (fs : List SysFetch) : ∀ s : SysInfoState,
    (runLoadsSI s fs).systemInfo = latestSuccessData s.systemInfo (fs.filterMap sysEnv) := by
  induction fs with
  | nil => intro s; rfl
  | cons f fs ih =>
    intro s
    cases f with
    | resolved r1 r2 =>
      show (runLoadsSI (loadSystemInfo s (.resolved r1 r2)) fs).systemInfo = _
      rw [ih]
      simp only [List.filterMap_cons, sysEnv]
      rw [latestSuccessData_cons]
      rfl
    | threw =>
      show (runLoadsSI (loadSystemInfo s .threw) fs).systemInfo = _
      rw [ih]
      simp only [List.filterMap_cons, sysEnv]
      rfl

/-- The appStatus snapshot after a run of SystemInfo loads is the data
of the latest success-true AppStatus envelope. -/
lemma runLoadsSI_appStatus (fs : List SysFetch) : ∀ s : SysInfoState,
    (runLoadsSI s fs).appStatus = latestSuccessData s.appStatus (fs.filterMap statusEnv) := by
  induction fs with
  | nil => intro s; rfl
  | cons f fs ih =>
    intro s
    cases f with
    | resolved r1 r2 =>
      show (runLoadsSI (loadSystemInfo s (.resolved r1 r2)) fs).appStatus = _
      rw [ih]
      simp only [List.filterMap_cons, statusEnv]
      rw [latestSuccessData_cons]
      rfl
    | threw =>
      show (runLoadsSI (loadSystemInfo s .threw) fs).appStatus = _
      rw [ih]
      simp only [List.filterMap_cons, statusEnv]
      rfl

/-- The dashboard appStatus snapshot after a run of dashboard loads is
the data of the latest success-true AppStatus envelope. -/
lemma runLoadsDash_appStatus (fs : List DashFetch) : ∀ s : DashboardState,
    (runLoadsDash s fs).appStatus = latestSuccessData s.appStatus (fs.filterMap dashEnv) := by
  induction fs with
  | nil => intro s; rfl
  | cons f fs ih =>
    intro s
    cases f with
    | resolved r =>
      show (runLoadsDash (loadDashboardData s (.resolved r)) fs).appStatus = _
      rw [ih]
      simp only [List.filterMap_cons, dashEnv]
      rw [latestSuccessData_cons]
      rfl
    | threw =>
      show (runLoadsDash (loadDashboardData s .threw) fs).appStatus = _
      rw [ih]
      simp only [List.filterMap_cons, dashEnv]
      rfl

/-- Claim C5: for every status-snapshot page and every sequence of
completed fetches, the snapshot held equals the data of the most recent
fetch whose envelope had success true (the prior snapshot when none
did): the SystemInfo page's systemInfo and appStatus snapshots and the
Dashboard page's appStatus snapshot. -/
theorem c5_snapshot_latest_success :
    (∀ (s : SysInfoState) (fs : List SysFetch),
      (runLoadsSI s fs).systemInfo = latestSuccessData s.systemInfo (fs.filterMap sysEnv)) ∧
    (∀ (s : SysInfoState) (fs : List SysFetch),
      (runLoadsSI s fs).appStatus = latestSuccessData s.appStatus (fs.filterMap statusEnv)) ∧
    (∀ (s : DashboardState) (fs : List DashFetch),
      (runLoadsDash s fs).appStatus = latestSuccessData s.appStatus (fs.filterMap dashEnv)) :=
  ⟨fun s fs => runLoadsSI_systemInfo fs s, fun s fs => runLoadsSI_appStatus fs s,
   fun s fs => runLoadsDash_appStatus fs s⟩

/-- With no active interval the elapse events fire nothing. -/
lemma dashRun_none_elapses (ms : List Nat) :
    dashRun ⟨none⟩ (ms.map DashEvent.elapse) = (⟨none⟩, 0) := by
  induction ms with
  | nil => rfl
  | cons m ms ih => simp [dashRun, dashStep, ih]

/-- Division fact behind interval accumulation: firing per full period
and carrying the remainder accounts exactly for the elapsed total. -/
lemma div_accum (a r : Nat) : a / 5000 + (a % 5000 + r) / 5000 = (a + r) / 5000 := by
  conv_rhs => rw [← Nat.div_add_mod a 5000]
  rw [Nat.add_assoc, Nat.add_comm (5000 * (a / 5000)) (a % 5000 + r),
      Nat.add_mul_div_left _ _ (by decide : 0 < 5000), Nat.add_comm]

/-- A run of elapse events over an active 5000 ms interval fires once
per full period of the total elapsed time and carries the remainder. -/
lemma dashRun_active_elapses (ms : List Nat) : ∀ acc : Nat, acc < 5000 →
    dashRun ⟨some (5000, acc)⟩ (ms.map DashEvent.elapse) =
      (⟨some (5000, (acc + ms.sum) % 5000)⟩, (acc + ms.sum) / 5000) := by
  induction ms with
  | nil =>
    intro acc h
    simp [dashRun, Nat.mod_eq_of_lt h, Nat.div_eq_of_lt h]
  | cons m ms ih =>
    intro acc h
    have hlt : (acc + m) % 5000 < 5000 := Nat.mod_lt _ (by decide)
    simp only [List.map_cons, dashRun, dashStep, List.sum_cons]
    rw [ih ((acc + m) % 5000) hlt]
    refine congrArg₂ Prod.mk ?_ ?_
    · rw [Nat.mod_add_mod, Nat.add_assoc]
    · rw [div_accum (acc + m) ms.sum, Nat.add_assoc]

/-- Splitting a lifecycle run at any point adds the two counts. -/
lemma dashRun_append (l1 l2 : List DashEvent) : ∀ s : DashTimers,
    dashRun s (l1 ++ l2) =
      ((dashRun (dashRun s l1).1 l2).1,
       (dashRun s l1).2 + (dashRun (dashRun s l1).1 l2).2) := by
  induction l1 with
  | nil => intro s; simp [dashRun]
  | cons e l1 ih =>
    intro s
    simp only [List.cons_append, dashRun, List.append_eq]
    rw [ih (dashStep s e).1]
    simp [Nat.add_assoc]

/-- Claim C6: the dashboard lifecycle runs the data load once on mount,
then once per full 5000 milliseconds elapsed while mounted, and the
cleanup clears the timer on unmount so that no load at all fires during
any time elapsing after the unmount. -/
theorem c6_dashboard_polling (pre post : List Nat) :
    (dashRun dashInitialTimers
        (DashEvent.mount ::
          (pre.map DashEvent.elapse ++ DashEvent.unmount :: post.map DashEvent.elapse))).2 =
      1 + pre.sum / 5000 := by
  have hmount :
      dashRun dashInitialTimers
          (DashEvent.mount ::
            (pre.map DashEvent.elapse ++ DashEvent.unmount :: post.map DashEvent.elapse)) =
        ((dashRun ⟨some (5000, 0)⟩
            (pre.map DashEvent.elapse ++ DashEvent.unmount :: post.map DashEvent.elapse)).1,
         1 + (dashRun ⟨some (5000, 0)⟩
            (pre.map DashEvent.elapse ++ DashEvent.unmount :: post.map DashEvent.elapse)).2) := rfl
  rw [hmount]
  rw [dashRun_append, dashRun_active_elapses pre 0 (by decide)]
  have hunmount :
      dashRun ⟨some (5000, (0 + pre.sum) % 5000)⟩
          (DashEvent.unmount :: post.map DashEvent.elapse) =
        ((dashRun ⟨none⟩ (post.map DashEvent.elapse)).1,
         0 + (dashRun ⟨none⟩ (post.map DashEvent.elapse)).2) := rfl
  rw [hunmount, dashRun_none_elapses]
  simp

end Jarvis
